import Mathlib

/-!
A shallow embedding of `contracts/lending/src/borrow.rs` from the
stellarlend-contracts repository, together with theorems checking the
module's natural-language specification against it.

Modelling conventions:
* `i128` values are `Int` with explicit bounds `i128Min`/`i128Max`;
  Rust's `checked_*` operations become `Option Int`, and `saturating_*`
  operations clamp at the bounds.
* `u64` timestamps are `Nat`; Rust's `u64::saturating_sub` is `Nat`
  subtraction (already truncated at zero).
* Rust truncating division (`/` on `i128`) is `Int.tdiv`.
* `Address` is modelled as `Nat` (an opaque identity; only equality is
  used by the source).
* The Soroban environment (`Env`) becomes an explicit record holding the
  persistent storage, the ledger timestamp, and the list of published
  events.  Storage-mutating functions take and return an `Env`; the
  source's early `return Err(..)` paths, which occur before any storage
  write, return the input `Env` unchanged.
* `user.require_auth()` traps in the host (it does not return a
  `BorrowError`), so it is outside the error-path semantics modelled
  here; the embedding covers the behaviour of authorised calls.
-/

namespace StellarLend

/-- Smallest `i128` value, `-2^127`. -/
def i128Min : Int := -170141183460469231731687303715884105728

/-- Largest `i128` value, `2^127 - 1`. -/
def i128Max : Int := 170141183460469231731687303715884105727

/-- Rust `i128::checked_add`: `none` exactly when the true sum leaves the
`i128` domain. -/
def checkedAdd (a b : Int) : Option Int :=
  if a + b < i128Min ∨ i128Max < a + b then none else some (a + b)

/-- Rust `i128::checked_mul`: `none` exactly when the true product leaves
the `i128` domain. -/
def checkedMul (a b : Int) : Option Int :=
  if a * b < i128Min ∨ i128Max < a * b then none else some (a * b)

/-- Rust `i128::checked_div`: `none` on division by zero or on the single
overflowing case `i128::MIN / -1`; otherwise truncating division. -/
def checkedDiv (a b : Int) : Option Int :=
  if b = 0 ∨ (a = i128Min ∧ b = -1) then none else some (a.tdiv b)

/-- Clamp an out-of-range value to the `i128` bounds. -/
def sat128 (r : Int) : Int :=
  if r < i128Min then i128Min else if i128Max < r then i128Max else r

/-- Rust `i128::saturating_add`. -/
def saturatingAdd (a b : Int) : Int := sat128 (a + b)

/-- Rust `i128::saturating_mul`. -/
def saturatingMul (a b : Int) : Int := sat128 (a * b)

/-- Rust `i128::saturating_div`: truncating division, clamping the single
overflowing case `i128::MIN / -1` to `i128::MAX`.  (Rust panics on a zero
divisor; the source only divides by the nonzero constants `10000` and
`SECONDS_PER_YEAR`, so the `b = 0` branch here is unreachable.) -/
def saturatingDiv (a b : Int) : Int :=
  if b = 0 then 0 else if a = i128Min ∧ b = -1 then i128Max else a.tdiv b

/-- The `BorrowError` enum of `borrow.rs`. -/
inductive BorrowError where
  | InsufficientCollateral
  | DebtCeilingReached
  | ProtocolPaused
  | InvalidAmount
  | Overflow
  | Unauthorized
  | AssetNotSupported
  | BelowMinimumBorrow
deriving DecidableEq, Repr

/-- The `DebtPosition` struct: one debt position per user. -/
structure DebtPosition where
  borrowed_amount : Int
  interest_accrued : Int
  last_update : Nat
  asset : Nat
deriving DecidableEq, Repr

/-- The `CollateralPosition` struct: one collateral position per user. -/
structure CollateralPosition where
  amount : Int
  asset : Nat
deriving DecidableEq, Repr

/-- The `BorrowEvent` struct published on each successful borrow. -/
structure BorrowEvent where
  user : Nat
  asset : Nat
  amount : Int
  collateral : Int
  timestamp : Nat
deriving DecidableEq, Repr

/-- The persistent key-value storage, one field per `BorrowDataKey`
constructor used by the module; `none` models an absent key. -/
structure Storage where
  userDebt : Nat → Option DebtPosition
  userCollateral : Nat → Option CollateralPosition
  totalDebt : Option Int
  debtCeiling : Option Int
  minBorrowAmount : Option Int
  paused : Option Bool

/-- The Soroban environment: persistent storage, the ledger timestamp,
and the published events (most recent first). -/
structure Env where
  storage : Storage
  timestamp : Nat
  events : List BorrowEvent

/-- `COLLATERAL_RATIO_MIN` constant: 150% in basis points. -/
def COLLATERAL_RATIO_MIN : Int := 15000

/-- `INTEREST_RATE_PER_YEAR` constant: 5% in basis points. -/
def INTEREST_RATE_PER_YEAR : Int := 500

/-- `SECONDS_PER_YEAR` constant. -/
def SECONDS_PER_YEAR : Nat := 31536000

/-- `get_debt_position`: the stored debt position, or the zero-valued
default (timestamped now, asset set to the user's own address as a
placeholder) when the key is absent. -/
def get_debt_position (env : Env) (user : Nat) : DebtPosition :=
  (env.storage.userDebt user).getD
    { borrowed_amount := 0
      interest_accrued := 0
      last_update := env.timestamp
      asset := user }

/-- `save_debt_position`: write the user's debt position. -/
def save_debt_position (env : Env) (user : Nat) (position : DebtPosition) : Env :=
  { env with storage :=
      { env.storage with userDebt := fun u => if u = user then some position else env.storage.userDebt u } }

/-- `get_collateral_position`: the stored collateral position, or the
zero-valued default when the key is absent. -/
def get_collateral_position (env : Env) (user : Nat) : CollateralPosition :=
  (env.storage.userCollateral user).getD { amount := 0, asset := user }

/-- `save_collateral_position`: write the user's collateral position. -/
def save_collateral_position (env : Env) (user : Nat) (position : CollateralPosition) : Env :=
  { env with storage :=
      { env.storage with userCollateral := fun u => if u = user then some position else env.storage.userCollateral u } }

/-- `get_total_debt`: stored total debt, defaulting to `0`. -/
def get_total_debt (env : Env) : Int := env.storage.totalDebt.getD 0

/-- `set_total_debt`: write the global total debt. -/
def set_total_debt (env : Env) (amount : Int) : Env :=
  { env with storage := { env.storage with totalDebt := some amount } }

/-- `get_debt_ceiling`: stored ceiling, defaulting to `i128::MAX`. -/
def get_debt_ceiling (env : Env) : Int := env.storage.debtCeiling.getD i128Max

/-- `get_min_borrow_amount`: stored minimum, defaulting to `1000`. -/
def get_min_borrow_amount (env : Env) : Int := env.storage.minBorrowAmount.getD 1000

/-- `is_paused`: stored pause flag, defaulting to `false`. -/
def is_paused (env : Env) : Bool := env.storage.paused.getD false

/-- `emit_borrow_event`: publish a `BorrowEvent` stamped with the current
ledger time. -/
def emit_borrow_event (env : Env) (user asset : Nat) (amount collateral : Int) : Env :=
  { env with events :=
      { user := user, asset := asset, amount := amount, collateral := collateral,
        timestamp := env.timestamp } :: env.events }

/-- `validate_collateral_ratio` (source name) from `borrow.rs`: computes
`min_collateral = borrow_amount * 15000 / 10000` with checked multiply
(`Overflow`) and checked truncating divide (`InvalidAmount`), then fails
with `InsufficientCollateral` when `collateral < min_collateral`. -/
def validate_collateral (collateral : Int) (borrow_amount : Int) : Except BorrowError Unit :=
  match checkedMul borrow_amount COLLATERAL_RATIO_MIN with
  | none => .error .Overflow
  | some m =>
    match checkedDiv m 10000 with
    | none => .error .InvalidAmount
    | some min_collateral =>
      if collateral < min_collateral then .error .InsufficientCollateral
      else .ok ()

/-- `calculate_interest` from `borrow.rs`: zero when nothing is borrowed,
otherwise `borrowed * 500 * elapsed / 10000 / 31536000` computed entirely
with saturating `i128` operations, with `elapsed` the `u64` saturating
difference between the ledger time and `last_update`. -/
def calculate_interest (env : Env) (position : DebtPosition) : Int :=
  if position.borrowed_amount = 0 then 0
  else
    let time_elapsed : Nat := env.timestamp - position.last_update
    saturatingDiv
      (saturatingDiv
        (saturatingMul (saturatingMul position.borrowed_amount INTEREST_RATE_PER_YEAR)
          (time_elapsed : Int))
        10000)
      (SECONDS_PER_YEAR : Int)

/-- `borrow` from `borrow.rs`.  Returns the source's `Result` paired with
the environment after the call; every early error return in the source
happens before any storage write, so those branches return the input
environment unchanged. -/
def borrow (env : Env) (user asset : Nat) (amount : Int) (collateral_asset : Nat)
    (collateral_amount : Int) : Except BorrowError Unit × Env :=
  if is_paused env then (.error .ProtocolPaused, env)
  else if amount ≤ 0 ∨ collateral_amount ≤ 0 then (.error .InvalidAmount, env)
  else if amount < get_min_borrow_amount env then (.error .BelowMinimumBorrow, env)
  else
    match validate_collateral collateral_amount amount with
    | .error e => (.error e, env)
    | .ok _ =>
      match checkedAdd (get_total_debt env) amount with
      | none => (.error .Overflow, env)
      | some new_total =>
        if get_debt_ceiling env < new_total then (.error .DebtCeilingReached, env)
        else
          let debt_position := get_debt_position env user
          let accrued_interest := calculate_interest env debt_position
          match checkedAdd debt_position.borrowed_amount amount with
          | none => (.error .Overflow, env)
          | some new_borrowed =>
            match checkedAdd debt_position.interest_accrued accrued_interest with
            | none => (.error .Overflow, env)
            | some new_interest =>
              let debt_position : DebtPosition :=
                { borrowed_amount := new_borrowed
                  interest_accrued := new_interest
                  last_update := env.timestamp
                  asset := asset }
              let collateral_position := get_collateral_position env user
              match checkedAdd collateral_position.amount collateral_amount with
              | none => (.error .Overflow, env)
              | some new_collateral =>
                let collateral_position : CollateralPosition :=
                  { amount := new_collateral, asset := collateral_asset }
                let env := save_debt_position env user debt_position
                let env := save_collateral_position env user collateral_position
                let env := set_total_debt env new_total
                let env := emit_borrow_event env user asset amount collateral_amount
                (.ok (), env)

/-- `get_user_debt` from `borrow.rs`: load the stored position, add the
freshly computed interest to `interest_accrued` (saturating), and return
it; the source performs no storage write, so the environment passes
through unchanged. -/
def get_user_debt (env : Env) (user : Nat) : DebtPosition × Env :=
  let position := get_debt_position env user
  let accrued := calculate_interest env position
  ({ position with interest_accrued := saturatingAdd position.interest_accrued accrued }, env)

/-- `get_user_collateral` from `borrow.rs`: the stored collateral
position, unmodified; no storage write. -/
def get_user_collateral (env : Env) (user : Nat) : CollateralPosition × Env :=
  (get_collateral_position env user, env)

/-- An environment whose storage is entirely absent keys: every read
falls back to the documented default. -/
def env0 : Env :=
  { storage :=
      { userDebt := fun _ => none
        userCollateral := fun _ => none
        totalDebt := none
        debtCeiling := none
        minBorrowAmount := none
        paused := none }
    timestamp := 0
    events := [] }

/-- `env0` with the pause flag set. -/
def envPaused : Env :=
  { env0 with storage := { env0.storage with paused := some true } }

/-- A debt position already holding `i128::MAX` principal. -/
def maxPosition : DebtPosition :=
  { borrowed_amount := i128Max, interest_accrued := 0, last_update := 0, asset := 1 }

/-- `env0` with a stored debt position of `i128::MAX` principal for user
`1` (total debt still absent): a state where the position update, not the
total-debt update, overflows. -/
def envMaxPos : Env :=
  { env0 with storage :=
      { env0.storage with userDebt := fun u => if u = 1 then some maxPosition else none } }

/-- `env0` with a debt ceiling of `500` units. -/
def envCeil : Env :=
  { env0 with storage := { env0.storage with debtCeiling := some 500 } }

/-- `env0` two years later on the ledger clock. -/
def envLater : Env := { env0 with timestamp := 63072000 }

/-- A sample debt position with a million units of principal, last
updated at time zero. -/
def probePosition : DebtPosition :=
  { borrowed_amount := 1000000, interest_accrued := 0, last_update := 0, asset := 7 }

/-- A sample debt position with nothing borrowed. -/
def zeroPosition : DebtPosition :=
  { borrowed_amount := 0, interest_accrued := 5, last_update := 3, asset := 7 }

/-- The environment a successful `borrow` leaves behind: the updated debt
position, the updated collateral position, the new total debt, and the
published event, in the source's write order. -/
def successEnv (env : Env) (user asset : Nat) (amount : Int) (collateral_asset : Nat)
    (collateral_amount : Int) : Env :=
  let p := get_debt_position env user
  let cp := get_collateral_position env user
  emit_borrow_event
    (set_total_debt
      (save_collateral_position
        (save_debt_position env user
          { borrowed_amount := p.borrowed_amount + amount
            interest_accrued := p.interest_accrued + calculate_interest env p
            last_update := env.timestamp
            asset := asset })
        user
        { amount := cp.amount + collateral_amount, asset := collateral_asset })
      (get_total_debt env + amount))
    user asset amount collateral_amount

/-- Modelled from the spec: the InterestAccrualEngine contract of §4.3,
stated in the spec's own vocabulary — zero when nothing is borrowed,
otherwise `borrowedAmount * ratePerYear * elapsedSeconds / 10000 /
secondsPerYear` with elapsed time clamped to zero when `now` is not after
`last_update`, every step saturating at the `i128` bounds.  Compared
against `calculate_interest`, the definition taken from the source. -/
def accrue_spec (now : Nat) (p : DebtPosition) : Int :=
  if p.borrowed_amount = 0 then 0
  else
    let elapsed : Int := if p.last_update ≤ now then ((now - p.last_update : Nat) : Int) else 0
    saturatingDiv
      (saturatingDiv (saturatingMul (saturatingMul p.borrowed_amount 500) elapsed) 10000)
      31536000

/-! ## Helper lemmas -/

theorem checkedAdd_eq_some {a b c : Int} :
    checkedAdd a b = some c ↔ i128Min ≤ a + b ∧ a + b ≤ i128Max ∧ c = a + b := by
  unfold checkedAdd i128Min i128Max
  split <;> rename_i h <;> simp <;> omega

theorem checkedAdd_eq_none {a b : Int} :
    checkedAdd a b = none ↔ a + b < i128Min ∨ i128Max < a + b := by
  unfold checkedAdd
  split <;> rename_i h <;> simp [h]

/-- Every run of `borrow` either succeeds and leaves `successEnv`, or
fails and leaves the environment untouched. -/
theorem borrow_cases (env : Env) (u a : Nat) (amt : Int) (ca : Nat) (c : Int) :
    borrow env u a amt ca c = (.ok (), successEnv env u a amt ca c)
      ∨ ∃ e, borrow env u a amt ca c = (.error e, env) := by
  unfold borrow
  dsimp only
  repeat' split
  all_goals try exact Or.inr ⟨_, rfl⟩
  refine Or.inl ?_
  simp_all [checkedAdd_eq_some, successEnv]

theorem borrow_ok_eq {env : Env} {u a : Nat} {amt : Int} {ca : Nat} {c : Int}
    (h : (borrow env u a amt ca c).1 = .ok ()) :
    (borrow env u a amt ca c).2 = successEnv env u a amt ca c := by
  rcases borrow_cases env u a amt ca c with hok | ⟨e, he⟩
  · rw [hok]
  · rw [he] at h
    simp at h

theorem sat128_mono {a b : Int} (h : a ≤ b) : sat128 a ≤ sat128 b := by
  unfold sat128 i128Min i128Max
  split_ifs <;> omega

theorem sat128_nonneg {r : Int} (h : 0 ≤ r) : 0 ≤ sat128 r := by
  unfold sat128 i128Min i128Max
  split_ifs <;> omega

theorem sat128_bounds (r : Int) : i128Min ≤ sat128 r ∧ sat128 r ≤ i128Max := by
  unfold sat128 i128Min i128Max
  split_ifs <;> omega

theorem saturatingMul_nonneg {a b : Int} (ha : 0 ≤ a) (hb : 0 ≤ b) :
    0 ≤ saturatingMul a b := sat128_nonneg (mul_nonneg ha hb)

theorem saturatingMul_mono_right {m x y : Int} (hm : 0 ≤ m) (h : x ≤ y) :
    saturatingMul m x ≤ saturatingMul m y :=
  sat128_mono (mul_le_mul_of_nonneg_left h hm)

theorem saturatingDiv_of_pos {a b : Int} (hb : 0 < b) : saturatingDiv a b = a.tdiv b := by
  unfold saturatingDiv
  have hb0 : ¬ b = 0 := by omega
  have hmin : ¬ (a = i128Min ∧ b = -1) := by
    rintro ⟨_, rfl⟩
    omega
  rw [if_neg hb0, if_neg hmin]

theorem saturatingDiv_nonneg {a b : Int} (ha : 0 ≤ a) (hb : 0 < b) :
    0 ≤ saturatingDiv a b := by
  rw [saturatingDiv_of_pos hb, Int.tdiv_eq_ediv ha hb.le]
  exact Int.ediv_nonneg ha hb.le

theorem saturatingDiv_mono_left {x y b : Int} (hx : 0 ≤ x) (hxy : x ≤ y) (hb : 0 < b) :
    saturatingDiv x b ≤ saturatingDiv y b := by
  rw [saturatingDiv_of_pos hb, saturatingDiv_of_pos hb,
    Int.tdiv_eq_ediv hx hb.le, Int.tdiv_eq_ediv (hx.trans hxy) hb.le]
  exact Int.ediv_le_ediv hb hxy

theorem saturatingDiv_bounds {a b : Int} (hmin : i128Min ≤ a) (hmax : a ≤ i128Max)
    (hb : 0 < b) : i128Min ≤ saturatingDiv a b ∧ saturatingDiv a b ≤ i128Max := by
  rw [saturatingDiv_of_pos hb]
  rcases le_or_lt 0 a with ha | ha
  · have h1 : a.tdiv b ≤ a := by
      rw [Int.tdiv_eq_ediv ha hb.le]
      exact Int.ediv_le_self b ha
    have h2 : 0 ≤ a.tdiv b := Int.tdiv_nonneg ha hb.le
    unfold i128Min i128Max at *
    omega
  · have hna : 0 ≤ -a := by omega
    have hrw : a.tdiv b = -((-a).tdiv b) := by
      rw [Int.neg_tdiv]
      omega
    have h1 : (-a).tdiv b ≤ -a := by
      rw [Int.tdiv_eq_ediv hna hb.le]
      exact Int.ediv_le_self b hna
    have h2 : 0 ≤ (-a).tdiv b := Int.tdiv_nonneg hna hb.le
    rw [hrw]
    unfold i128Min i128Max at *
    omega

/-- For a positive borrow amount whose scaled value stays in range, the
ratio check reduces to a comparison against the truncated minimum. -/
theorem validate_collateral_eq {c amt : Int} (hpos : 0 < amt) (hof : amt * 15000 ≤ i128Max) :
    validate_collateral c amt =
      (if c < (amt * 15000).tdiv 10000 then .error .InsufficientCollateral else .ok ()) := by
  unfold validate_collateral COLLATERAL_RATIO_MIN checkedMul checkedDiv
  have h1 : ¬ (amt * 15000 < i128Min ∨ i128Max < amt * 15000) := by
    unfold i128Min i128Max at *
    omega
  rw [if_neg h1]
  dsimp only
  have h2 : ¬ ((10000 : Int) = 0 ∨ (amt * 15000 = i128Min ∧ (10000 : Int) = -1)) := by
    unfold i128Min at *
    omega
  rw [if_neg h2]

/-- The source's interest computation agrees with the spec's §4.3
formula. -/
theorem calculate_interest_eq_spec (env : Env) (p : DebtPosition) :
    calculate_interest env p = accrue_spec env.timestamp p := by
  unfold calculate_interest accrue_spec
  by_cases h0 : p.borrowed_amount = 0
  · rw [if_pos h0, if_pos h0]
  · rw [if_neg h0, if_neg h0]
    dsimp only
    have helapsed : ((env.timestamp - p.last_update : Nat) : Int)
        = (if p.last_update ≤ env.timestamp
            then ((env.timestamp - p.last_update : Nat) : Int) else 0) := by
      split_ifs with h
      · rfl
      · have hz : env.timestamp - p.last_update = 0 := Nat.sub_eq_zero_of_le (by omega)
        rw [hz]
        rfl
    rw [← helapsed]
    rfl

/-- The interest computation never leaves the `i128` domain: it saturates
instead. -/
theorem calculate_interest_bounds (env : Env) (p : DebtPosition) :
    i128Min ≤ calculate_interest env p ∧ calculate_interest env p ≤ i128Max := by
  unfold calculate_interest
  by_cases h0 : p.borrowed_amount = 0
  · rw [if_pos h0]
    unfold i128Min i128Max
    omega
  · rw [if_neg h0]
    dsimp only
    have hX := sat128_bounds
      (saturatingMul p.borrowed_amount INTEREST_RATE_PER_YEAR
        * ((env.timestamp - p.last_update : Nat) : Int))
    have hY := saturatingDiv_bounds hX.1 hX.2 (show (0 : Int) < 10000 by norm_num)
    exact saturatingDiv_bounds hY.1 hY.2
      (show (0 : Int) < ((SECONDS_PER_YEAR : Nat) : Int) by norm_num [SECONDS_PER_YEAR])

theorem successEnv_userDebt (env : Env) (u a : Nat) (amt : Int) (ca : Nat) (c : Int) :
    (successEnv env u a amt ca c).storage.userDebt u =
      some { borrowed_amount := (get_debt_position env u).borrowed_amount + amt
             interest_accrued := (get_debt_position env u).interest_accrued
               + calculate_interest env (get_debt_position env u)
             last_update := env.timestamp
             asset := a } := by
  simp [successEnv, emit_borrow_event, set_total_debt, save_collateral_position,
    save_debt_position]

theorem successEnv_total (env : Env) (u a : Nat) (amt : Int) (ca : Nat) (c : Int) :
    get_total_debt (successEnv env u a amt ca c) = get_total_debt env + amt := by
  simp [successEnv, get_total_debt, emit_borrow_event, set_total_debt,
    save_collateral_position, save_debt_position]

/-! ## The claims -/

/-- C1: `borrow` is atomic — whenever it returns an error, the entire
environment (both positions, `TotalDebt`, all settings, and the event
log) is exactly as it was before the call; in particular the two position
writes, the `TotalDebt` write, and the event emission happen only on
`Ok`. -/
theorem borrow_error_frame (env : Env) (u a : Nat) (amt : Int) (ca : Nat) (c : Int)
    (e : BorrowError) (h : (borrow env u a amt ca c).1 = .error e) :
    (borrow env u a amt ca c).2 = env := by
  rcases borrow_cases env u a amt ca c with hok | ⟨e', he⟩
  · rw [hok] at h
    simp at h
  · rw [he]

/-- C1 witness: a paused-state borrow errors and leaves the environment
untouched. -/
theorem borrow_error_frame_witness : (borrow envPaused 1 2 100 3 200).2 = envPaused :=
  borrow_error_frame envPaused 1 2 100 3 200 BorrowError.ProtocolPaused rfl

/-- C2 counterexample: with default settings, `amount = 1001` and
`collateralAmount = 1501` satisfy `collateral * 10000 < amount * 15000`,
yet `borrow` succeeds instead of failing with `InsufficientCollateral` —
the code compares against the truncated `amount * 15000 / 10000`. -/
theorem borrow_collateral_boundary_cex :
    (1501 : Int) * 10000 < 1001 * 15000
    ∧ (borrow env0 1 2 1001 3 1501).1 = Except.ok () :=
  ⟨by decide, rfl⟩

/-- C2 (amended): for every `amount > 0` that passes the pause,
positivity, and minimum-borrow checks (and whose scaled value
`amount * 15000` stays in the `i128` domain), `borrow` fails with
`InsufficientCollateral` exactly when
`collateralAmount < amount * 15000 / 10000` with truncating division. -/
theorem borrow_insufficient_collateral_iff (env : Env) (u a ca : Nat) (amt c : Int)
    (hp : is_paused env = false) (ha : 0 < amt) (hc : 0 < c)
    (hmin : get_min_borrow_amount env ≤ amt) (hof : amt * 15000 ≤ i128Max) :
    ((borrow env u a amt ca c).1 = .error .InsufficientCollateral
      ↔ c < (amt * 15000).tdiv 10000) := by
  unfold borrow
  dsimp only
  have hp' : ¬ (is_paused env = true) := by simp [hp]
  have h2 : ¬ (amt ≤ 0 ∨ c ≤ 0) := by omega
  have h3 : ¬ (amt < get_min_borrow_amount env) := by omega
  rw [if_neg hp', if_neg h2, if_neg h3, validate_collateral_eq ha hof]
  by_cases hcc : c < (amt * 15000).tdiv 10000
  · rw [if_pos hcc]
    simp [hcc]
  · rw [if_neg hcc]
    dsimp only
    simp only [hcc, iff_false]
    intro hbad
    repeat' split at hbad
    all_goals simp at hbad

/-- C2 witness: with default settings, borrowing `1000` against `1499`
fails with `InsufficientCollateral` via the amended characterisation. -/
theorem borrow_insufficient_collateral_iff_witness :
    ((borrow env0 1 2 1000 3 1499).1 = .error .InsufficientCollateral
      ↔ (1499 : Int) < ((1000 : Int) * 15000).tdiv 10000) :=
  borrow_insufficient_collateral_iff env0 1 2 3 1000 1499 rfl (by decide) (by decide)
    (by decide) (by decide)

/-- C3: whenever the pause flag is set, `borrow` fails with
`ProtocolPaused` regardless of every other parameter and of the ceiling,
minimum, and position state (the universal quantification over the rest
of the environment captures that the check precedes all other
validation, and that the failure persists for as long as the flag is
set). -/
theorem borrow_paused (env : Env) (u a ca : Nat) (amt c : Int)
    (h : is_paused env = true) :
    borrow env u a amt ca c = (.error .ProtocolPaused, env) := by
  unfold borrow
  rw [if_pos h]

/-- C3 witness: a concrete paused environment rejects a well-formed
borrow. -/
theorem borrow_paused_witness :
    borrow envPaused 1 2 1000 3 1500 = (.error .ProtocolPaused, envPaused) :=
  borrow_paused envPaused 1 2 3 1000 1500 rfl

/-- C4 counterexample: with the protocol paused and `amount = -1 ≤ 0`,
`borrow` fails with `ProtocolPaused`, not `InvalidAmount` — the claim's
independence from the pause flag is wrong because the pause check runs
first. -/
theorem borrow_invalid_amount_cex :
    ((-1 : Int) ≤ 0)
    ∧ (borrow envPaused 1 2 (-1) 3 5).1 = Except.error BorrowError.ProtocolPaused
    ∧ BorrowError.ProtocolPaused ≠ BorrowError.InvalidAmount :=
  ⟨by decide, rfl, by decide⟩

/-- C4 (amended): when the protocol is not paused, `borrow` with
`amount ≤ 0` or `collateralAmount ≤ 0` always fails with
`InvalidAmount`, independent of the ceiling state (when paused it fails
with `ProtocolPaused` instead). -/
theorem borrow_invalid_amount (env : Env) (u a ca : Nat) (amt c : Int)
    (hp : is_paused env = false) (h : amt ≤ 0 ∨ c ≤ 0) :
    borrow env u a amt ca c = (.error .InvalidAmount, env) := by
  unfold borrow
  have hp' : ¬ (is_paused env = true) := by simp [hp]
  rw [if_neg hp', if_pos h]

/-- C4 witness: an unpaused borrow of `-1` fails with `InvalidAmount`. -/
theorem borrow_invalid_amount_witness :
    borrow env0 1 2 (-1) 3 5 = (.error .InvalidAmount, env0) :=
  borrow_invalid_amount env0 1 2 3 (-1) 5 rfl (Or.inl (by decide))

/-- C5 counterexample: with a stored position already at `i128::MAX`
principal, `borrow` fails with `Overflow` even though the
`newTotal = currentTotalDebt + amount` addition stays inside the `i128`
domain — the claim's "fails with Overflow exactly when this addition
overflows" misses the later position-update additions. -/
theorem borrow_overflow_position_cex :
    (borrow envMaxPos 1 2 1000 3 1500).1 = Except.error BorrowError.Overflow
    ∧ i128Min ≤ get_total_debt envMaxPos + 1000
    ∧ get_total_debt envMaxPos + 1000 ≤ i128Max :=
  ⟨rfl, by decide, by decide⟩

/-- C5 (amended): after the ratio check passes, the
`newTotal = currentTotalDebt + amount` step fails with `Overflow`
exactly when the sum leaves the `i128` domain; when it does not, the
call fails with `DebtCeilingReached` exactly when `newTotal` is strictly
greater than the configured ceiling, which defaults to `i128::MAX` when
unset, making `DebtCeilingReached` unreachable in that case.  (The
subsequent position-update additions may still fail with `Overflow` even
when the total addition succeeds.) -/
theorem borrow_overflow_ceiling (env : Env) (u a ca : Nat) (amt c : Int)
    (hp : is_paused env = false) (ha : 0 < amt) (hc : 0 < c)
    (hmin : get_min_borrow_amount env ≤ amt) (hof : amt * 15000 ≤ i128Max)
    (hrat : ¬ c < (amt * 15000).tdiv 10000) (htot : i128Min ≤ get_total_debt env) :
    (i128Max < get_total_debt env + amt → (borrow env u a amt ca c).1 = .error .Overflow)
    ∧ (get_total_debt env + amt ≤ i128Max →
        ((borrow env u a amt ca c).1 = .error .DebtCeilingReached
          ↔ get_debt_ceiling env < get_total_debt env + amt))
    ∧ (env.storage.debtCeiling = none →
        (borrow env u a amt ca c).1 ≠ .error .DebtCeilingReached) := by
  unfold borrow
  dsimp only
  have hp' : ¬ (is_paused env = true) := by simp [hp]
  have h2 : ¬ (amt ≤ 0 ∨ c ≤ 0) := by omega
  have h3 : ¬ (amt < get_min_borrow_amount env) := by omega
  rw [if_neg hp', if_neg h2, if_neg h3, validate_collateral_eq ha hof, if_neg hrat]
  dsimp only
  refine ⟨?_, ?_, ?_⟩
  · intro hov
    have hn : checkedAdd (get_total_debt env) amt = none := checkedAdd_eq_none.mpr (Or.inr hov)
    rw [hn]
  · intro hle
    have hs : checkedAdd (get_total_debt env) amt = some (get_total_debt env + amt) :=
      checkedAdd_eq_some.mpr ⟨by omega, hle, rfl⟩
    rw [hs]
    dsimp only
    by_cases hce : get_debt_ceiling env < get_total_debt env + amt
    · rw [if_pos hce]
      simp [hce]
    · rw [if_neg hce]
      simp only [hce, iff_false]
      intro hbad
      repeat' split at hbad
      all_goals simp at hbad
  · intro hnone
    have hmax : get_debt_ceiling env = i128Max := by simp [get_debt_ceiling, hnone]
    cases hadd : checkedAdd (get_total_debt env) amt with
    | none =>
        intro hbad
        simp at hbad
    | some nt =>
        dsimp only
        obtain ⟨hlo, hhi, rfl⟩ := checkedAdd_eq_some.mp hadd
        have hce : ¬ (get_debt_ceiling env < get_total_debt env + amt) := by
          rw [hmax]
          omega
        rw [if_neg hce]
        intro hbad
        repeat' split at hbad
        all_goals simp at hbad

/-- C5 witness: with a ceiling of `500`, borrowing `1000` trips
`DebtCeilingReached`, derived through the amended characterisation. -/
theorem borrow_overflow_ceiling_witness :
    (borrow envCeil 1 2 1000 3 1500).1 = .error .DebtCeilingReached :=
  ((borrow_overflow_ceiling envCeil 1 2 3 1000 1500 rfl (by decide) (by decide)
      (by decide) (by decide) (by decide) (by decide)).2.1 (by decide)).mpr (by decide)

/-- C6: `calculate_interest` is total and never errors; it agrees with
the spec's saturating formula (`accrue_spec`, including the zero-borrow
short-circuit and the clamped elapsed time), and its result always stays
inside the `i128` domain — it saturates instead of overflowing or
panicking. -/
theorem calculate_interest_total_spec (env : Env) (p : DebtPosition) :
    calculate_interest env p = accrue_spec env.timestamp p
    ∧ i128Min ≤ calculate_interest env p
    ∧ calculate_interest env p ≤ i128Max :=
  ⟨calculate_interest_eq_spec env p, (calculate_interest_bounds env p).1,
    (calculate_interest_bounds env p).2⟩

/-- C7: interest accrual is monotonic in elapsed time — for a fixed
position with non-negative principal, a later clock never yields less
interest. -/
theorem calculate_interest_monotone (p : DebtPosition) (e1 e2 : Env)
    (hb : 0 ≤ p.borrowed_amount) (ht : e1.timestamp ≤ e2.timestamp) :
    calculate_interest e1 p ≤ calculate_interest e2 p := by
  unfold calculate_interest
  by_cases h0 : p.borrowed_amount = 0
  · rw [if_pos h0, if_pos h0]
  · rw [if_neg h0, if_neg h0]
    dsimp only
    have hm : 0 ≤ saturatingMul p.borrowed_amount INTEREST_RATE_PER_YEAR :=
      saturatingMul_nonneg hb (by norm_num [INTEREST_RATE_PER_YEAR])
    have he : ((e1.timestamp - p.last_update : Nat) : Int)
        ≤ ((e2.timestamp - p.last_update : Nat) : Int) := by
      exact_mod_cast Nat.sub_le_sub_right ht p.last_update
    have h1 : saturatingMul (saturatingMul p.borrowed_amount INTEREST_RATE_PER_YEAR)
          ((e1.timestamp - p.last_update : Nat) : Int)
        ≤ saturatingMul (saturatingMul p.borrowed_amount INTEREST_RATE_PER_YEAR)
          ((e2.timestamp - p.last_update : Nat) : Int) :=
      saturatingMul_mono_right hm he
    have h1n : 0 ≤ saturatingMul (saturatingMul p.borrowed_amount INTEREST_RATE_PER_YEAR)
        ((e1.timestamp - p.last_update : Nat) : Int) :=
      saturatingMul_nonneg hm (Int.natCast_nonneg _)
    have h2 : saturatingDiv (saturatingMul (saturatingMul p.borrowed_amount
          INTEREST_RATE_PER_YEAR) ((e1.timestamp - p.last_update : Nat) : Int)) 10000
        ≤ saturatingDiv (saturatingMul (saturatingMul p.borrowed_amount
          INTEREST_RATE_PER_YEAR) ((e2.timestamp - p.last_update : Nat) : Int)) 10000 :=
      saturatingDiv_mono_left h1n h1 (by norm_num)
    have h2n : 0 ≤ saturatingDiv (saturatingMul (saturatingMul p.borrowed_amount
        INTEREST_RATE_PER_YEAR) ((e1.timestamp - p.last_update : Nat) : Int)) 10000 :=
      saturatingDiv_nonneg h1n (by norm_num)
    exact saturatingDiv_mono_left h2n h2
      (show (0 : Int) < ((SECONDS_PER_YEAR : Nat) : Int) by norm_num [SECONDS_PER_YEAR])

/-- C7 witness: a million-unit position accrues no less interest after
two years than at time zero. -/
theorem calculate_interest_monotone_witness :
    calculate_interest env0 probePosition ≤ calculate_interest envLater probePosition :=
  calculate_interest_monotone probePosition env0 envLater (by decide) (by decide)

/-- C8: `getUserDebt` is read-only and idempotent — it returns the
stored (or default) position with the freshly accrued interest added to
`interest_accrued` in the returned value only, leaves the environment
(storage and event log) unchanged, and a second call at the same time
returns the identical value with the state still unchanged. -/
theorem get_user_debt_pure (env : Env) (u : Nat) :
    (get_user_debt env u).2 = env
    ∧ (get_user_debt env u).1 =
        { get_debt_position env u with
            interest_accrued := saturatingAdd (get_debt_position env u).interest_accrued
              (calculate_interest env (get_debt_position env u)) }
    ∧ (get_user_debt (get_user_debt env u).2 u).1 = (get_user_debt env u).1
    ∧ (get_user_debt (get_user_debt env u).2 u).2 = env :=
  ⟨rfl, rfl, rfl, rfl⟩

/-- C9: starting from a user with no stored debt position, two
successful borrows of `a1` and `a2` leave `getUserDebt` reporting
`borrowed_amount = a1 + a2` and raise `TotalDebt` by `a1 + a2`. -/
theorem borrow_accumulates (env : Env) (u a ca : Nat) (a1 c1 a2 c2 : Int)
    (h0 : env.storage.userDebt u = none)
    (h1 : (borrow env u a a1 ca c1).1 = .ok ())
    (h2 : (borrow (borrow env u a a1 ca c1).2 u a a2 ca c2).1 = .ok ()) :
    (get_user_debt (borrow (borrow env u a a1 ca c1).2 u a a2 ca c2).2 u).1.borrowed_amount
        = a1 + a2
    ∧ get_total_debt (borrow (borrow env u a a1 ca c1).2 u a a2 ca c2).2
        = get_total_debt env + (a1 + a2) := by
  have e1 := borrow_ok_eq h1
  rw [e1] at h2
  have e2 := borrow_ok_eq h2
  rw [e1, e2]
  have hd0 : (get_debt_position env u).borrowed_amount = 0 := by
    simp [get_debt_position, h0]
  have k1 : get_debt_position (successEnv env u a a1 ca c1) u =
      { borrowed_amount := (get_debt_position env u).borrowed_amount + a1
        interest_accrued := (get_debt_position env u).interest_accrued
          + calculate_interest env (get_debt_position env u)
        last_update := env.timestamp
        asset := a } := by
    unfold get_debt_position
    rw [successEnv_userDebt]
    rfl
  have k2 : get_debt_position (successEnv (successEnv env u a a1 ca c1) u a a2 ca c2) u =
      { borrowed_amount := (get_debt_position (successEnv env u a a1 ca c1) u).borrowed_amount + a2
        interest_accrued := (get_debt_position (successEnv env u a a1 ca c1) u).interest_accrued
          + calculate_interest (successEnv env u a a1 ca c1)
              (get_debt_position (successEnv env u a a1 ca c1) u)
        last_update := (successEnv env u a a1 ca c1).timestamp
        asset := a } := by
    unfold get_debt_position
    rw [successEnv_userDebt]
    rfl
  constructor
  · show (get_user_debt (successEnv (successEnv env u a a1 ca c1) u a a2 ca c2) u).1.borrowed_amount
        = a1 + a2
    simp [get_user_debt, k2, k1, hd0]
  · rw [successEnv_total, successEnv_total]
    omega

/-- C9 witness: two borrows of `1000` against `1500` each, from the
empty state, leave `borrowed_amount = 2000` and `TotalDebt = 2000`. -/
theorem borrow_accumulates_witness :
    (get_user_debt (borrow (borrow env0 1 2 1000 3 1500).2 1 2 1000 3 1500).2 1).1.borrowed_amount
        = 1000 + 1000
    ∧ get_total_debt (borrow (borrow env0 1 2 1000 3 1500).2 1 2 1000 3 1500).2
        = get_total_debt env0 + (1000 + 1000) :=
  borrow_accumulates env0 1 2 3 1000 1500 1000 1500 rfl rfl rfl

/-- C10: for a user with no stored positions, `getUserDebt` returns the
zero position stamped with the current ledger time and with the asset
field set to the user's own address (a placeholder), and
`getUserCollateral` returns the zero collateral position with the same
placeholder asset. -/
theorem default_positions (env : Env) (u : Nat)
    (h1 : env.storage.userDebt u = none) (h2 : env.storage.userCollateral u = none) :
    (get_user_debt env u).1 =
      { borrowed_amount := 0, interest_accrued := 0, last_update := env.timestamp, asset := u }
    ∧ (get_user_collateral env u).1 = { amount := 0, asset := u } := by
  have hd : get_debt_position env u =
      { borrowed_amount := 0, interest_accrued := 0, last_update := env.timestamp,
        asset := u } := by
    simp [get_debt_position, h1]
  constructor
  · simp [get_user_debt, hd, calculate_interest, saturatingAdd, sat128, i128Min, i128Max]
  · simp [get_user_collateral, get_collateral_position, h2]

/-- C10 witness: the empty environment yields the placeholder default
positions for user `1`. -/
theorem default_positions_witness :
    (get_user_debt env0 1).1 =
      { borrowed_amount := 0, interest_accrued := 0, last_update := env0.timestamp, asset := 1 }
    ∧ (get_user_collateral env0 1).1 = { amount := 0, asset := 1 } :=
  default_positions env0 1 rfl rfl

end StellarLend
